import Mathlib

/-!
Verification of the ValutaTrade Hub rate-resolution subsystem.

This file is a shallow embedding, in Lean 4, of the rate resolution and
refresh logic of the repository:

* `valutatrade_hub/core/currencies.py` — the currency registry
  (`get_currency`, the registered codes);
* `valutatrade_hub/core/usecases.py` — `TradingService._get_cached_rate`,
  `TradingService._is_rate_fresh`, `TradingService.get_exchange_rate`;
* `valutatrade_hub/parser_service/updater.py` — `RatesUpdater.run_update`;
* `valutatrade_hub/parser_service/storage.py` — `RatesStorage.save_rates`;
* `valutatrade_hub/parser_service/api_clients.py` — `CoinGeckoClient.fetch_rates`
  and `ExchangeRateApiClient.fetch_rates`.

Modelling conventions:

* Python floats are modelled by `Rat`; timestamps (`datetime`) by `Int`
  seconds, so `datetime.now() - updated_at < timedelta(seconds=ttl)`
  becomes `now - updated_at < ttl`.
* A Python dict is an association list with unique keys; `dict[k]`
  membership and access are `List.lookup`.
* Raised exceptions are the `Except` error channel; `PyError` mirrors the
  exception classes of `core/exceptions.py` that the modelled code can
  raise, plus Python's built-in `ZeroDivisionError` (the source divides by
  a stored rate without a guard, so the embedding must make that division
  fallible rather than total: `pyDiv`).
* Effects are made explicit as parameters: the cache snapshot read by
  `db.load_rates()` is an argument, the snapshot observed after
  `RatesUpdater.run_update()` (or the exception that call raised) is an
  argument, and `datetime.now()` is the argument `now`.  A returned `Bool`
  flag records whether the refresh path was entered.
-/

/-- Decidable equality for `Except`, so concrete runs of the embedded
functions can be checked by `decide`. -/
instance instDecidableEqExcept {ε α : Type} [DecidableEq ε] [DecidableEq α] :
    DecidableEq (Except ε α) := fun a b =>
  match a, b with
  | .error x, .error y => decidable_of_iff (x = y) (by simp)
  | .error _, .ok _ => isFalse (by simp)
  | .ok _, .error _ => isFalse (by simp)
  | .ok x, .ok y => decidable_of_iff (x = y) (by simp)

/-- Mirrors the exception classes of `core/exceptions.py` used by the
resolution path, plus Python's built-in `ZeroDivisionError`.
`currencyNotFound` carries the (already upper-cased) code,
`apiRequestError` carries its `reason` string. -/
inductive PyError where
  | currencyNotFound (code : String)
  | apiRequestError (reason : String)
  | zeroDivisionError
deriving Repr, DecidableEq

/-- Python `str(e)` for the exceptions above, as produced by their
`__init__` calls to `super().__init__(...)` in `core/exceptions.py`
(`ZeroDivisionError` uses CPython's standard message). -/
def pyStr : PyError → String
  | .currencyNotFound code => "Неизвестная валюта " ++ code
  | .apiRequestError reason => "Ошибка при обращении к внешнему API: " ++ reason
  | .zeroDivisionError => "division by zero"

/-- Python division `a / b` on floats: raises `ZeroDivisionError` when the
divisor is zero, otherwise returns the quotient. -/
def pyDiv (a b : Rat) : Except PyError Rat :=
  if b = 0 then .error .zeroDivisionError else .ok (a / b)

/-- One entry of the `"pairs"` mapping of `data/rates.json` as written by
`RatesStorage.save_rates`: `{"rate": float, "updated_at": iso, "source": str}`. -/
structure RateEntry where
  rate : Rat
  updated_at : Int
  source : String
deriving Repr, DecidableEq

/-- The rates cache snapshot `{"pairs": {...}, "last_refresh": ...}`
returned by `db.load_rates()` / `RatesStorage.load_rates`. -/
structure RatesSnapshot where
  pairs : List (String × RateEntry)
  last_refresh : Option Int
deriving Repr, DecidableEq

/-- The pair key `f"{from_currency}_{to_currency}"`. -/
def pairKey (from_currency to_currency : String) : String :=
  from_currency ++ "_" ++ to_currency

/-- Python `str.upper()` as used on currency codes (ASCII letters), written
by structural recursion over the characters so that concrete instances
evaluate inside proofs. -/
def pyUpper (s : String) : String :=
  ⟨s.data.map Char.toUpper⟩

/-- Python `str.lower()` on ASCII code strings, by structural recursion
over the characters. -/
def pyLower (s : String) : String :=
  ⟨s.data.map Char.toLower⟩

/-- The codes registered in the global `_currency_registry` of
`core/currencies.py` (lines 107-117); `register_currency` keys the
registry by the upper-cased code. -/
def currencyRegistryCodes : List String :=
  ["USD", "EUR", "GBP", "JPY", "CHF", "RUB", "BTC", "ETH", "LTC", "ADA"]

/-- `core/currencies.py` `get_currency`: upper-cases the code, raises
`CurrencyNotFoundError(code)` when it is not registered, otherwise returns
the registry entry (modelled by its key). -/
def get_currency (code : String) : Except PyError String :=
  let c := pyUpper code
  if currencyRegistryCodes.contains c then .ok c
  else .error (.currencyNotFound c)

/-- `TradingService._get_cached_rate` (usecases.py lines 180-217):
direct pair, then reverse pair (dividing `1 / rate` with no zero guard),
then triangulation through the literal `"USD"` with a
`datetime.now()` timestamp; truthiness of Python floats makes a zero leg
behave as absent in the triangulation test `if usd_to_from and usd_to_to`. -/
def TradingService.get_cached_rate (s : RatesSnapshot) (now : Int)
    (from_currency to_currency : String) :
    Except PyError (Option (Rat × Int)) :=
  match s.pairs.lookup (pairKey from_currency to_currency) with
  | some entry => .ok (some (entry.rate, entry.updated_at))
  | none =>
    match s.pairs.lookup (pairKey to_currency from_currency) with
    | some entry =>
      match pyDiv 1 entry.rate with
      | .ok q => .ok (some (q, entry.updated_at))
      | .error e => .error e
    | none =>
      if from_currency ≠ "USD" ∧ to_currency ≠ "USD" then
        match s.pairs.lookup (pairKey from_currency "USD"),
              s.pairs.lookup (pairKey to_currency "USD") with
        | some ef, some et =>
          if ef.rate ≠ 0 ∧ et.rate ≠ 0 then
            .ok (some (et.rate / ef.rate, now))
          else .ok none
        | some _, none => .ok none
        | none, some _ => .ok none
        | none, none => .ok none
      else .ok none

/-- `TradingService._is_rate_fresh` (usecases.py lines 219-222):
`datetime.now() - updated_at < timedelta(seconds=ttl_seconds)` with
`ttl_seconds = settings.get("rates_ttl_seconds", 300)` passed in as `ttl`. -/
def TradingService.is_rate_fresh (now ttl updated_at : Int) : Bool :=
  now - updated_at < ttl

/-- The default of `settings.get("rates_ttl_seconds", 300)`
(`infra/settings.py` line 32). -/
def settingsRatesTtlSecondsDefault : Int := 300

/-- The `try: updater.run_update(); ...` block of
`TradingService.get_exchange_rate` (usecases.py lines 240-258): `refreshed`
is the snapshot observed by the second `_get_cached_rate` call after
`run_update()` returned, or the exception that `run_update()` raised.  Any
exception raised inside the block — including the `ApiRequestError` raised
at line 252 and a `ZeroDivisionError` from the second lookup — is caught by
`except Exception as e` and re-raised as
`ApiRequestError(f"Failed to update rates: {str(e)}")`. -/
def TradingService.retry_after_update (refreshed : Except PyError RatesSnapshot)
    (now : Int) (from_currency to_currency : String) :
    Except PyError (Rat × Int) :=
  match refreshed with
  | .error e => .error (.apiRequestError ("Failed to update rates: " ++ pyStr e))
  | .ok s2 =>
    match TradingService.get_cached_rate s2 now from_currency to_currency with
    | .error e => .error (.apiRequestError ("Failed to update rates: " ++ pyStr e))
    | .ok (some (r, ua)) =>
      if r ≠ 0 then .ok (r, ua)
      else .error (.apiRequestError ("Failed to update rates: " ++
        pyStr (PyError.apiRequestError ("Rate for " ++ from_currency ++ "->" ++
          to_currency ++ " not available after update"))))
    | .ok none => .error (.apiRequestError ("Failed to update rates: " ++
        pyStr (PyError.apiRequestError ("Rate for " ++ from_currency ++ "->" ++
          to_currency ++ " not available after update"))))

/-- `TradingService.get_exchange_rate` (usecases.py lines 224-258).
Validates both codes through `get_currency`, reads the cached candidate,
returns it when `rate` is truthy and fresh, and otherwise enters the
refresh-and-retry block.  The second component records whether that block
was entered (i.e. whether `run_update()` was invoked).  A
`ZeroDivisionError` from the first `_get_cached_rate` call (line 234) is
outside the `try` and propagates unwrapped. -/
def TradingService.get_exchange_rate (s : RatesSnapshot)
    (refreshed : Except PyError RatesSnapshot) (now ttl : Int)
    (from_currency to_currency : String) :
    Except PyError (Rat × Int) × Bool :=
  match get_currency from_currency with
  | .error e => (.error e, false)
  | .ok _ =>
    match get_currency to_currency with
    | .error e => (.error e, false)
    | .ok _ =>
      match TradingService.get_cached_rate s now from_currency to_currency with
      | .error e => (.error e, false)
      | .ok (some (r, ua)) =>
        if r ≠ 0 ∧ TradingService.is_rate_fresh now ttl ua then
          (.ok (r, ua), false)
        else
          (TradingService.retry_after_update refreshed now from_currency to_currency, true)
      | .ok none =>
        (TradingService.retry_after_update refreshed now from_currency to_currency, true)

/-! ## Parser service: providers, updater, storage -/

/-- `ParserConfig.BASE_CURRENCY` (`parser_service/config.py`). -/
def parserConfigBaseCurrency : String := "USD"

/-- `ParserConfig.FIAT_CURRENCIES` (`parser_service/config.py`). -/
def parserConfigFiatCurrencies : List String :=
  ["EUR", "GBP", "JPY", "CHF", "CAD", "AUD", "RUB"]

/-- `ParserConfig.CRYPTO_CURRENCIES` (`parser_service/config.py`). -/
def parserConfigCryptoCurrencies : List String :=
  ["BTC", "ETH", "LTC", "ADA"]

/-- `ParserConfig.CRYPTO_ID_MAP` (`parser_service/config.py`). -/
def parserConfigCryptoIdMap : List (String × String) :=
  [("BTC", "bitcoin"), ("ETH", "ethereum"), ("LTC", "litecoin"), ("ADA", "cardano")]

/-- Python `dict.__setitem__`: overwrite the value when the key is present
(keeping its position), append otherwise. -/
def dictInsert (d : List (String × Rat)) (k : String) (v : Rat) :
    List (String × Rat) :=
  if d.any (fun p => p.1 == k) then
    d.map (fun p => if p.1 == k then (k, v) else p)
  else d ++ [(k, v)]

/-- Python `dict.update`: insert every pair of `upd` into `d`, left to
right (last writer wins on key collision). -/
def dictUpdate (d upd : List (String × Rat)) : List (String × Rat) :=
  upd.foldl (fun acc p => dictInsert acc p.1 p.2) d

/-- The observable outcome of the HTTP exchange made by
`CoinGeckoClient.fetch_rates`: a raised
`requests.exceptions.RequestException` (which includes the `HTTPError`
raised by `raise_for_status()` on a non-2xx status), a raised
`KeyError`/`ValueError`/`TypeError` while decoding or traversing the JSON
body, or a decoded body mapping each asset id to its per-vs-currency
quotes. -/
inductive CryptoFetchOutcome where
  | requestException (reason : String)
  | parseError (reason : String)
  | success (data : List (String × List (String × Rat)))

/-- `CoinGeckoClient.fetch_rates` (`parser_service/api_clients.py` lines
22-65): on any request or parsing failure raises
`ApiRequestError` carrying the reason; on success builds
`"<CRYPTO>_<BASE>"` keys for every configured crypto whose id and
lower-cased base currency appear in the response. -/
def CoinGeckoClient.fetch_rates (outcome : CryptoFetchOutcome) :
    Except PyError (List (String × Rat)) :=
  let crypto_ids := parserConfigCryptoCurrencies.filterMap
    (fun code => parserConfigCryptoIdMap.lookup code)
  if crypto_ids.isEmpty then .ok []
  else
    match outcome with
    | .requestException reason =>
      .error (.apiRequestError ("CoinGecko API request failed: " ++ reason))
    | .parseError reason =>
      .error (.apiRequestError ("CoinGecko API response parsing failed: " ++ reason))
    | .success data =>
      .ok (parserConfigCryptoCurrencies.foldl (fun acc code =>
        match parserConfigCryptoIdMap.lookup code with
        | none => acc
        | some cid =>
          match data.lookup cid with
          | none => acc
          | some quotes =>
            match quotes.lookup (pyLower parserConfigBaseCurrency) with
            | none => acc
            | some rate =>
              dictInsert acc (pairKey code parserConfigBaseCurrency) rate) [])

/-- The observable outcome of the HTTP exchange made by
`ExchangeRateApiClient.fetch_rates`: a raised
`requests.exceptions.RequestException`, a raised
`KeyError`/`ValueError`/`TypeError` while decoding the body, or a
response carrying its HTTP status code and the decoded envelope
(`result`, optional `error-type`, and the `conversion_rates` table). -/
inductive FiatFetchOutcome where
  | requestException (reason : String)
  | parseError (reason : String)
  | response (status : Nat) (result : String) (errorType : Option String)
      (conversion_rates : List (String × Rat))

/-- `ExchangeRateApiClient._get_demo_rates`
(`parser_service/api_clients.py` lines 117-127): the embedded static
demo table. -/
def ExchangeRateApiClient.demo_rates : List (String × Rat) :=
  [("EUR_USD", 10786/10000), ("GBP_USD", 12593/10000), ("JPY_USD", 67/10000),
   ("CHF_USD", 11150/10000), ("RUB_USD", 1016/100000)]

/-- `ExchangeRateApiClient.fetch_rates` (`parser_service/api_clients.py`
lines 71-115): a non-200 status, a non-`"success"` result envelope, a
request failure or a parsing failure all degrade to the static demo
table; only a 200/`"success"` response is converted into
`"<FIAT>_<BASE>"` pairs for the configured fiat codes present in
`conversion_rates`. -/
def ExchangeRateApiClient.fetch_rates (outcome : FiatFetchOutcome) :
    Except PyError (List (String × Rat)) :=
  match outcome with
  | .requestException _ => .ok ExchangeRateApiClient.demo_rates
  | .parseError _ => .ok ExchangeRateApiClient.demo_rates
  | .response status result _ conversion_rates =>
    if status ≠ 200 then .ok ExchangeRateApiClient.demo_rates
    else if result ≠ "success" then .ok ExchangeRateApiClient.demo_rates
    else
      .ok (parserConfigFiatCurrencies.foldl (fun acc currency =>
        match conversion_rates.lookup currency with
        | none => acc
        | some rate =>
          dictInsert acc (pairKey currency parserConfigBaseCurrency) rate) [])

/-- The observable behaviour of one `RatesUpdater.run_update` call:
the merged mapping it returns, the mapping passed to
`RatesStorage.save_rates` when that call happened (`none` when no save
occurred), and whether each provider client was invoked. -/
structure UpdateOutcome where
  rates : List (String × Rat)
  saved : Option (List (String × Rat))
  cryptoCalled : Bool
  fiatCalled : Bool
deriving Repr, DecidableEq

/-- `RatesUpdater.run_update` (`parser_service/updater.py` lines 24-67).
`cryptoResult`/`fiatResult` are what each client `fetch_rates()` call
would produce (both clients only ever raise `ApiRequestError`, which is
exactly what the `except ApiRequestError` arms catch and log).  A failed
provider is skipped; the merged dict is saved through
`RatesStorage.save_rates` only when non-empty. -/
def RatesUpdater.run_update (source : Option String)
    (cryptoResult fiatResult : Except PyError (List (String × Rat))) :
    UpdateOutcome :=
  let cryptoCalled := source.isNone || source == some "coingecko"
  let all1 : List (String × Rat) :=
    if cryptoCalled then
      match cryptoResult with
      | .ok crypto_rates => dictUpdate [] crypto_rates
      | .error _ => []
    else []
  let fiatCalled := source.isNone || source == some "exchangerate"
  let all2 : List (String × Rat) :=
    if fiatCalled then
      match fiatResult with
      | .ok fiat_rates => dictUpdate all1 fiat_rates
      | .error _ => all1
    else all1
  { rates := all2,
    saved := if all2.isEmpty then none else some all2,
    cryptoCalled := cryptoCalled,
    fiatCalled := fiatCalled }

/-- `RatesStorage.save_rates` (`parser_service/storage.py` lines 19-51):
builds a fresh snapshot whose `pairs` carry every given rate with
`updated_at` set to the current time and the given source label, and
whose `last_refresh` is the current time; the whole snapshot replaces the
previous file content (atomic replace). -/
def RatesStorage.save_rates (rates : List (String × Rat)) (source : String)
    (now : Int) : RatesSnapshot :=
  { pairs := rates.map (fun p => (p.1, { rate := p.2, updated_at := now, source := source })),
    last_refresh := some now }

/-! ## Claims -/

/-- C2: a cached candidate is fresh exactly when `now - updatedAt < TTL`
(strict less-than); a candidate whose age equals the TTL boundary is
stale; and for every cached entry with `updatedAt ≤ now - TTL` the engine
does not return it as-is but enters the refresh-and-retry path (the
returned flag is `true` and the result is whatever the retry against the
refreshed snapshot produces). -/
theorem c2_freshness_strict_ttl :
    (∀ now ttl updated_at : Int,
       TradingService.is_rate_fresh now ttl updated_at = true ↔ now - updated_at < ttl)
    ∧ (∀ now ttl : Int, TradingService.is_rate_fresh now ttl (now - ttl) = false)
    ∧ (∀ (s : RatesSnapshot) (refreshed : Except PyError RatesSnapshot)
         (now ttl : Int) (f t : String) (e : RateEntry),
       pyUpper f ∈ currencyRegistryCodes →
       pyUpper t ∈ currencyRegistryCodes →
       s.pairs.lookup (pairKey f t) = some e →
       e.updated_at ≤ now - ttl →
       TradingService.get_exchange_rate s refreshed now ttl f t
         = (TradingService.retry_after_update refreshed now f t, true)) := by
  refine ⟨?_, ?_, ?_⟩
  · intro now ttl updated_at
    simp [TradingService.is_rate_fresh]
  · intro now ttl
    simp [TradingService.is_rate_fresh]
  · intro s refreshed now ttl f t e hf ht hlook hstale
    have hfr : TradingService.is_rate_fresh now ttl e.updated_at = false := by
      simp only [TradingService.is_rate_fresh, decide_eq_false_iff_not, not_lt]
      omega
    simp [TradingService.get_exchange_rate, get_currency, hf, ht,
      TradingService.get_cached_rate, hlook, hfr]

/-- Witness for c2_freshness_strict_ttl: a direct `EUR_USD` entry aged
exactly 900 seconds against a 300-second TTL makes the engine enter the
refresh path. -/
theorem c2_freshness_strict_ttl_witness :
    TradingService.get_exchange_rate ⟨[("EUR_USD", ⟨2, 100, "all"⟩)], some 100⟩
        (.ok ⟨[], none⟩) 1000 300 "EUR" "USD"
      = (TradingService.retry_after_update (.ok ⟨[], none⟩) 1000 "EUR" "USD", true) :=
  c2_freshness_strict_ttl.2.2 ⟨[("EUR_USD", ⟨2, 100, "all"⟩)], some 100⟩
    (.ok ⟨[], none⟩) 1000 300 "EUR" "USD" ⟨2, 100, "all"⟩
    (by decide) (by decide) (by decide) (by decide)

/-- C4: a fresh direct pair `A_B` with rate `r` and timestamp `ts` gives
`resolve(A,B) = (r, ts)` and, when `B_A` is absent, `resolve(B,A) =
(1/r, ts)`; direct lookup takes precedence over inverse, inverse over
triangulation (the direct answer is used whatever else the snapshot
holds, and the inverse answer whenever the direct key is absent), and the
lookup consults only the keys `A_B`, `B_A`, `A_USD`, `B_USD` — two
snapshots agreeing on those four keys resolve identically, so the engine
never triangulates through a currency other than the base `"USD"`. -/
theorem c4_lookup_precedence :
    (∀ (s : RatesSnapshot) (now : Int) (f t : String) (e : RateEntry),
       s.pairs.lookup (pairKey f t) = some e →
       TradingService.get_cached_rate s now f t = .ok (some (e.rate, e.updated_at)))
    ∧ (∀ (s : RatesSnapshot) (now : Int) (f t : String) (e : RateEntry),
       s.pairs.lookup (pairKey f t) = none →
       s.pairs.lookup (pairKey t f) = some e →
       e.rate ≠ 0 →
       TradingService.get_cached_rate s now f t = .ok (some (1 / e.rate, e.updated_at)))
    ∧ (∀ (s1 s2 : RatesSnapshot) (now : Int) (f t : String),
       s1.pairs.lookup (pairKey f t) = s2.pairs.lookup (pairKey f t) →
       s1.pairs.lookup (pairKey t f) = s2.pairs.lookup (pairKey t f) →
       s1.pairs.lookup (pairKey f "USD") = s2.pairs.lookup (pairKey f "USD") →
       s1.pairs.lookup (pairKey t "USD") = s2.pairs.lookup (pairKey t "USD") →
       TradingService.get_cached_rate s1 now f t = TradingService.get_cached_rate s2 now f t)
    ∧ (∀ (s : RatesSnapshot) (refreshed : Except PyError RatesSnapshot)
         (now ttl : Int) (f t : String) (r : Rat) (ts : Int) (src : String),
       pyUpper f ∈ currencyRegistryCodes →
       pyUpper t ∈ currencyRegistryCodes →
       s.pairs.lookup (pairKey f t) = some ⟨r, ts, src⟩ →
       s.pairs.lookup (pairKey t f) = none →
       r ≠ 0 → now - ts < ttl →
       TradingService.get_exchange_rate s refreshed now ttl f t = (.ok (r, ts), false)
       ∧ TradingService.get_exchange_rate s refreshed now ttl t f = (.ok (1 / r, ts), false)) := by
  refine ⟨?_, ?_, ?_, ?_⟩
  · intro s now f t e h
    simp [TradingService.get_cached_rate, h]
  · intro s now f t e h1 h2 hr
    simp [TradingService.get_cached_rate, h1, h2, pyDiv, hr]
  · intro s1 s2 now f t h1 h2 h3 h4
    simp only [TradingService.get_cached_rate, h1, h2, h3, h4]
  · intro s refreshed now ttl f t r ts src hf ht hdir hinv hr hfresh
    have hfr : TradingService.is_rate_fresh now ttl ts = true := by
      simpa [TradingService.is_rate_fresh] using hfresh
    constructor
    · simp [TradingService.get_exchange_rate, get_currency, hf, ht,
        TradingService.get_cached_rate, hdir, hfr, hr]
    · have hinvr : (1 : Rat) / r ≠ 0 := one_div_ne_zero hr
      simp [TradingService.get_exchange_rate, get_currency, hf, ht,
        TradingService.get_cached_rate, hdir, hinv, pyDiv, hr, hfr, hinvr]

/-- Witness for c4_lookup_precedence: with `EUR_USD` cached at rate 2,
`resolve(EUR,USD) = (2, ts)` and `resolve(USD,EUR) = (1/2, ts)`. -/
theorem c4_lookup_precedence_witness :
    TradingService.get_exchange_rate ⟨[("EUR_USD", ⟨2, 900, "all"⟩)], some 900⟩
        (.ok ⟨[], none⟩) 1000 300 "EUR" "USD" = (.ok (2, 900), false)
    ∧ TradingService.get_exchange_rate ⟨[("EUR_USD", ⟨2, 900, "all"⟩)], some 900⟩
        (.ok ⟨[], none⟩) 1000 300 "USD" "EUR" = (.ok (1 / 2, 900), false) :=
  c4_lookup_precedence.2.2.2 ⟨[("EUR_USD", ⟨2, 900, "all"⟩)], some 900⟩
    (.ok ⟨[], none⟩) 1000 300 "EUR" "USD" 2 900 "all"
    (by decide) (by decide) (by decide) (by decide) (by decide) (by decide)

/-- General triangulation behaviour of the resolution engine: helper for
the C3 theorem below. -/
theorem triangulation_general :
    ∀ (s : RatesSnapshot) (refreshed : Except PyError RatesSnapshot)
      (now ttl : Int) (f t : String) (rf rt : Rat) (tsf tst : Int) (srcf srct : String),
      pyUpper f ∈ currencyRegistryCodes →
      pyUpper t ∈ currencyRegistryCodes →
      f ≠ "USD" → t ≠ "USD" →
      s.pairs.lookup (pairKey f t) = none →
      s.pairs.lookup (pairKey t f) = none →
      s.pairs.lookup (pairKey f "USD") = some ⟨rf, tsf, srcf⟩ →
      s.pairs.lookup (pairKey t "USD") = some ⟨rt, tst, srct⟩ →
      rf ≠ 0 → rt ≠ 0 →
      now - tsf < ttl → now - tst < ttl → 0 < ttl →
      TradingService.get_exchange_rate s refreshed now ttl f t
        = (.ok (rt / rf, now), false) := by
  intro s refreshed now ttl f t rf rt tsf tst srcf srct hf ht hfu htu
    hdir hinv hfusd htusd hrf hrt hfr1 hfr2 httl
  have hq : rt / rf ≠ 0 := div_ne_zero hrt hrf
  have hfr : TradingService.is_rate_fresh now ttl now = true := by
    simp only [TradingService.is_rate_fresh, decide_eq_true_eq]
    omega
  simp [TradingService.get_exchange_rate, get_currency, hf, ht,
    TradingService.get_cached_rate, hdir, hinv, hfu, htu, hfusd, htusd,
    hrf, hrt, hq, hfr]

/-- C3: with neither side equal to the base `"USD"`, neither `A_B` nor
`B_A` cached, and both `A_USD` and `B_USD` cached fresh with non-zero
rates, `resolve(A,B)` returns `(rate of B_USD) / (rate of A_USD)` paired
with the current time (a freshly derived timestamp, not one inherited
from the two source entries); concretely, `A_USD = 2` and `B_USD = 8`
give rate 4. -/
theorem c3_triangulation_through_base :
    (∀ (s : RatesSnapshot) (refreshed : Except PyError RatesSnapshot)
       (now ttl : Int) (f t : String) (rf rt : Rat) (tsf tst : Int) (srcf srct : String),
       pyUpper f ∈ currencyRegistryCodes →
       pyUpper t ∈ currencyRegistryCodes →
       f ≠ "USD" → t ≠ "USD" →
       s.pairs.lookup (pairKey f t) = none →
       s.pairs.lookup (pairKey t f) = none →
       s.pairs.lookup (pairKey f "USD") = some ⟨rf, tsf, srcf⟩ →
       s.pairs.lookup (pairKey t "USD") = some ⟨rt, tst, srct⟩ →
       rf ≠ 0 → rt ≠ 0 →
       now - tsf < ttl → now - tst < ttl → 0 < ttl →
       TradingService.get_exchange_rate s refreshed now ttl f t
         = (.ok (rt / rf, now), false))
    ∧ TradingService.get_exchange_rate
        ⟨[("EUR_USD", ⟨2, 1000, "all"⟩), ("GBP_USD", ⟨8, 1000, "all"⟩)], some 1000⟩
        (.ok ⟨[], none⟩) 1000 300 "EUR" "GBP"
      = (.ok (4, 1000), false) := by
  refine ⟨triangulation_general, ?_⟩
  have h := triangulation_general
    ⟨[("EUR_USD", ⟨2, 1000, "all"⟩), ("GBP_USD", ⟨8, 1000, "all"⟩)], some 1000⟩
    (.ok ⟨[], none⟩) 1000 300 "EUR" "GBP" 2 8 1000 1000 "all" "all"
    (by decide) (by decide) (by decide) (by decide) (by decide) (by decide)
    (by decide) (by decide) (by decide) (by decide) (by decide) (by decide) (by decide)
  rw [h]
  norm_num

/-- Witness for c3_triangulation_through_base: instantiates the general
triangulation statement at `EUR_USD = 2`, `GBP_USD = 8`. -/
theorem c3_triangulation_through_base_witness :
    TradingService.get_exchange_rate
        ⟨[("EUR_USD", ⟨2, 1000, "all"⟩), ("GBP_USD", ⟨8, 1000, "all"⟩)], some 1000⟩
        (.ok ⟨[], none⟩) 1000 300 "EUR" "GBP"
      = (.ok ((8 : Rat) / 2, 1000), false) :=
  c3_triangulation_through_base.1
    ⟨[("EUR_USD", ⟨2, 1000, "all"⟩), ("GBP_USD", ⟨8, 1000, "all"⟩)], some 1000⟩
    (.ok ⟨[], none⟩) 1000 300 "EUR" "GBP" 2 8 1000 1000 "all" "all"
    (by decide) (by decide) (by decide) (by decide) (by decide) (by decide)
    (by decide) (by decide) (by decide) (by decide) (by decide) (by decide) (by decide)

/-- C5: when the cached candidate is missing, zero (falsy) or stale, the
engine delegates to the updater and retries the lookup exactly once
against the refreshed snapshot (the result is exactly
`retry_after_update` on that snapshot, with the refresh flag set); if the
retried lookup still finds nothing, it fails with the `ApiRequestError`
(the spec's `RateUnavailable`) whose message identifies the requested
pair. -/
theorem c5_single_refresh_then_rate_unavailable (s s2 : RatesSnapshot)
    (now ttl : Int) (f t : String)
    (hf : pyUpper f ∈ currencyRegistryCodes)
    (ht : pyUpper t ∈ currencyRegistryCodes)
    (hmiss : TradingService.get_cached_rate s now f t = .ok none ∨
      ∃ r ua, TradingService.get_cached_rate s now f t = .ok (some (r, ua)) ∧
        (r = 0 ∨ TradingService.is_rate_fresh now ttl ua = false)) :
    TradingService.get_exchange_rate s (.ok s2) now ttl f t
      = (TradingService.retry_after_update (.ok s2) now f t, true)
    ∧ (TradingService.get_cached_rate s2 now f t = .ok none →
       TradingService.retry_after_update (.ok s2) now f t
         = .error (.apiRequestError ("Failed to update rates: " ++
             pyStr (PyError.apiRequestError ("Rate for " ++ f ++ "->" ++ t ++
               " not available after update"))))) := by
  constructor
  · rcases hmiss with h | ⟨r, ua, h, hbad⟩
    · simp [TradingService.get_exchange_rate, get_currency, hf, ht, h]
    · rcases hbad with hr | hfr
      · subst hr
        simp [TradingService.get_exchange_rate, get_currency, hf, ht, h]
      · simp [TradingService.get_exchange_rate, get_currency, hf, ht, h, hfr]
  · intro h2
    simp [TradingService.retry_after_update, h2]

/-- Witness for c5_single_refresh_then_rate_unavailable: an empty cache
and an empty refreshed snapshot produce the pair-identifying terminal
error. -/
theorem c5_single_refresh_then_rate_unavailable_witness :
    TradingService.get_exchange_rate ⟨[], none⟩ (.ok ⟨[], none⟩) 1000 300 "EUR" "USD"
      = (TradingService.retry_after_update (.ok ⟨[], none⟩) 1000 "EUR" "USD", true)
    ∧ (TradingService.get_cached_rate ⟨[], none⟩ 1000 "EUR" "USD" = .ok none →
       TradingService.retry_after_update (.ok ⟨[], none⟩) 1000 "EUR" "USD"
         = .error (.apiRequestError ("Failed to update rates: " ++
             pyStr (PyError.apiRequestError ("Rate for " ++ "EUR" ++ "->" ++ "USD" ++
               " not available after update"))))) :=
  c5_single_refresh_then_rate_unavailable ⟨[], none⟩ ⟨[], none⟩ 1000 300 "EUR" "USD"
    (by decide) (by decide) (Or.inl (by decide))

/-- C10 (implicit): the retried lookup after the one-shot refresh does not
re-apply the freshness test — any candidate with a non-zero rate found in
the post-refresh snapshot is returned with its own timestamp; in
particular, when the refresh leaves the snapshot unchanged and the cache
holds only a stale entry, the stale rate and old timestamp are returned
instead of failing (instantiate `s2 := s`, `r2 := r`, `ua2 := ua`). -/
theorem c10_retry_skips_freshness_test (s s2 : RatesSnapshot) (now ttl : Int)
    (f t : String) (r r2 : Rat) (ua ua2 : Int)
    (hf : pyUpper f ∈ currencyRegistryCodes)
    (ht : pyUpper t ∈ currencyRegistryCodes)
    (h1 : TradingService.get_cached_rate s now f t = .ok (some (r, ua)))
    (hstale : TradingService.is_rate_fresh now ttl ua = false)
    (h2 : TradingService.get_cached_rate s2 now f t = .ok (some (r2, ua2)))
    (hr2 : r2 ≠ 0) :
    TradingService.get_exchange_rate s (.ok s2) now ttl f t = (.ok (r2, ua2), true) := by
  simp [TradingService.get_exchange_rate, get_currency, hf, ht, h1, hstale,
    TradingService.retry_after_update, h2, hr2]

/-- Witness for c10_retry_skips_freshness_test: a stale `EUR_USD` entry
(age 1000 s, TTL 300 s) survives an unproductive refresh and is returned
as-is with its old timestamp. -/
theorem c10_retry_skips_freshness_test_witness :
    TradingService.get_exchange_rate ⟨[("EUR_USD", ⟨2, 0, "all"⟩)], some 0⟩
        (.ok ⟨[("EUR_USD", ⟨2, 0, "all"⟩)], some 0⟩) 1000 300 "EUR" "USD"
      = (.ok (2, 0), true) :=
  c10_retry_skips_freshness_test ⟨[("EUR_USD", ⟨2, 0, "all"⟩)], some 0⟩
    ⟨[("EUR_USD", ⟨2, 0, "all"⟩)], some 0⟩ 1000 300 "EUR" "USD" 2 2 0 0
    (by decide) (by decide) (by decide) (by decide) (by decide) (by decide)

/-- C1 (as stated, refuted): the claim asserts `resolve(c, c) = (1.0, now)`
for every registered code `c`, short-circuiting without any cache read.
The source has no identity short-circuit: `resolve("USD","USD")` on an
empty cache walks the full lookup-refresh-retry path (the refresh flag is
`true`, so the cache and the updater are touched) and terminates in the
pair-identifying error instead of `(1.0, now)`. -/
theorem c1_identity_shortcircuit_counterexample :
    TradingService.get_exchange_rate ⟨[], none⟩ (.ok ⟨[], none⟩) 1000 300 "USD" "USD"
      = (.error (.apiRequestError ("Failed to update rates: " ++
          pyStr (PyError.apiRequestError "Rate for USD->USD not available after update"))), true)
    ∧ (TradingService.get_exchange_rate ⟨[], none⟩ (.ok ⟨[], none⟩)
        1000 300 "USD" "USD").1 ≠ .ok (1, 1000) := by
  constructor
  · decide
  · decide

/-- C1 (amended): `resolve(c, c)` is not short-circuited and does consult
the cache.  For a registered non-`"USD"` code `c` whose pair `c_USD` is
cached with a non-zero rate (and no degenerate `c_c` key is present),
`resolve(c, c)` returns `(1.0, now)` — but via USD triangulation over the
cache, with `now` the derivation time.  For `c = "USD"` (where
triangulation is skipped) an empty cache and an unproductive refresh make
`resolve(USD, USD)` fail with the pair-identifying error rather than
return `(1.0, now)`. -/
theorem c1_identity_amended :
    (∀ (s : RatesSnapshot) (refreshed : Except PyError RatesSnapshot)
       (now ttl : Int) (c : String) (e : RateEntry),
       pyUpper c ∈ currencyRegistryCodes →
       c ≠ "USD" →
       s.pairs.lookup (pairKey c c) = none →
       s.pairs.lookup (pairKey c "USD") = some e →
       e.rate ≠ 0 → 0 < ttl →
       TradingService.get_exchange_rate s refreshed now ttl c c
         = (.ok (1, now), false))
    ∧ (∀ now ttl : Int,
       TradingService.get_exchange_rate ⟨[], none⟩ (.ok ⟨[], none⟩) now ttl "USD" "USD"
         = (.error (.apiRequestError ("Failed to update rates: " ++
             pyStr (PyError.apiRequestError "Rate for USD->USD not available after update"))),
            true)) := by
  constructor
  · intro s refreshed now ttl c e hc hcu hdiag hcusd hr httl
    have hone : e.rate / e.rate = 1 := div_self hr
    have hq : e.rate / e.rate ≠ 0 := div_ne_zero hr hr
    have hfr : TradingService.is_rate_fresh now ttl now = true := by
      simp only [TradingService.is_rate_fresh, decide_eq_true_eq]
      omega
    simp [TradingService.get_exchange_rate, get_currency, hc,
      TradingService.get_cached_rate, hdiag, hcu, hcusd, hr, hq, hfr, hone]
  · intro now ttl
    rfl

/-- Witness for c1_identity_amended: `resolve(EUR, EUR)` with `EUR_USD`
cached at rate 2 yields `(1.0, now)` through triangulation. -/
theorem c1_identity_amended_witness :
    TradingService.get_exchange_rate ⟨[("EUR_USD", ⟨2, 500, "all"⟩)], some 500⟩
        (.ok ⟨[], none⟩) 600 300 "EUR" "EUR" = (.ok (1, 600), false) :=
  c1_identity_amended.1 ⟨[("EUR_USD", ⟨2, 500, "all"⟩)], some 500⟩
    (.ok ⟨[], none⟩) 600 300 "EUR" ⟨2, 500, "all"⟩
    (by decide) (by decide) (by decide) (by decide) (by decide) (by decide)

/-- C8 (as stated, refuted): the claim asserts that `resolve` normalizes
both codes to uppercase before any lookup, so lowercase input yields the
same result as uppercase input.  It does not: the cache lookups use the
codes exactly as passed (upper-casing happens only inside the registry
check and in the CLI caller), so `resolve("usd","eur")` misses the cached
`"USD_EUR"` entry (and every other upper-cased key) while
`resolve("USD","EUR")` hits it. -/
theorem c8_uppercase_normalization_counterexample :
    TradingService.get_exchange_rate ⟨[("USD_EUR", ⟨2, 100, "all"⟩)], some 100⟩
        (.ok ⟨[("USD_EUR", ⟨2, 100, "all"⟩)], some 100⟩) 100 300 "usd" "eur"
      ≠ TradingService.get_exchange_rate ⟨[("USD_EUR", ⟨2, 100, "all"⟩)], some 100⟩
        (.ok ⟨[("USD_EUR", ⟨2, 100, "all"⟩)], some 100⟩) 100 300 "USD" "EUR" := by
  decide

/-- C8 (amended): `resolve` validates both codes case-insensitively (the
registry check upper-cases) and fails with `CurrencyNotFound` carrying the
upper-cased code before any cache lookup or refresh — the outcome for an
invalid code is the same for every snapshot and every refresh result, with
the refresh flag `false` — but it does not normalize the codes for the
cache lookups themselves: the pair keys are built from the codes as
passed, so when none of the four raw-keyed entries exist the lookup finds
no candidate. -/
theorem c8_validation_before_lookup_amended :
    (∀ code : String, pyUpper code ∉ currencyRegistryCodes →
       get_currency code = .error (.currencyNotFound (pyUpper code)))
    ∧ (∀ code : String, pyUpper code ∈ currencyRegistryCodes →
       get_currency code = .ok (pyUpper code))
    ∧ (∀ (s : RatesSnapshot) (refreshed : Except PyError RatesSnapshot)
         (now ttl : Int) (f t : String), pyUpper f ∉ currencyRegistryCodes →
       TradingService.get_exchange_rate s refreshed now ttl f t
         = (.error (.currencyNotFound (pyUpper f)), false))
    ∧ (∀ (s : RatesSnapshot) (refreshed : Except PyError RatesSnapshot)
         (now ttl : Int) (f t : String),
       pyUpper f ∈ currencyRegistryCodes → pyUpper t ∉ currencyRegistryCodes →
       TradingService.get_exchange_rate s refreshed now ttl f t
         = (.error (.currencyNotFound (pyUpper t)), false))
    ∧ (∀ (s : RatesSnapshot) (now : Int) (f t : String),
       s.pairs.lookup (pairKey f t) = none →
       s.pairs.lookup (pairKey t f) = none →
       s.pairs.lookup (pairKey f "USD") = none →
       s.pairs.lookup (pairKey t "USD") = none →
       TradingService.get_cached_rate s now f t = .ok none) := by
  refine ⟨?_, ?_, ?_, ?_, ?_⟩
  · intro code h
    simp [get_currency, h]
  · intro code h
    simp [get_currency, h]
  · intro s refreshed now ttl f t h
    simp [TradingService.get_exchange_rate, get_currency, h]
  · intro s refreshed now ttl f t hf ht
    simp [TradingService.get_exchange_rate, get_currency, hf, ht]
  · intro s now f t h1 h2 h3 h4
    by_cases husd : f ≠ "USD" ∧ t ≠ "USD" <;>
      simp [TradingService.get_cached_rate, h1, h2, h3, h4, husd]

/-- Witness for c8_validation_before_lookup_amended: the unregistered code
`"XXX"` is rejected before any lookup, and lowercase keys miss an
uppercase-keyed snapshot. -/
theorem c8_validation_before_lookup_amended_witness :
    get_currency "XXX" = .error (.currencyNotFound (pyUpper "XXX"))
    ∧ TradingService.get_exchange_rate ⟨[("USD_EUR", ⟨2, 100, "all"⟩)], some 100⟩
        (.ok ⟨[], none⟩) 100 300 "XXX" "USD"
      = (.error (.currencyNotFound (pyUpper "XXX")), false)
    ∧ TradingService.get_cached_rate ⟨[("USD_EUR", ⟨2, 100, "all"⟩)], some 100⟩
        100 "usd" "eur" = .ok none :=
  ⟨c8_validation_before_lookup_amended.1 "XXX" (by decide),
   c8_validation_before_lookup_amended.2.2.1 ⟨[("USD_EUR", ⟨2, 100, "all"⟩)], some 100⟩
     (.ok ⟨[], none⟩) 100 300 "XXX" "USD" (by decide),
   c8_validation_before_lookup_amended.2.2.2.2 ⟨[("USD_EUR", ⟨2, 100, "all"⟩)], some 100⟩
     100 "usd" "eur" (by decide) (by decide) (by decide) (by decide)⟩

/-- C9 (as stated, refuted): the claim asserts the inverse-lookup division
`1/rate` is guarded so a stored zero rate cannot crash resolution.  There
is no guard: with `EUR_GBP` cached at rate 0, looking up the inverse pair
`(GBP, EUR)` performs `1 / 0` and the resulting `ZeroDivisionError`
propagates out of `get_exchange_rate` unhandled (it is raised by the first
`_get_cached_rate` call, outside the `try` block). -/
theorem c9_zero_rate_guard_counterexample :
    TradingService.get_cached_rate ⟨[("EUR_GBP", ⟨0, 100, "all"⟩)], some 100⟩
        100 "GBP" "EUR" = .error .zeroDivisionError
    ∧ TradingService.get_exchange_rate ⟨[("EUR_GBP", ⟨0, 100, "all"⟩)], some 100⟩
        (.ok ⟨[], none⟩) 100 300 "GBP" "EUR" = (.error .zeroDivisionError, false) := by
  constructor
  · decide
  · decide

/-- C9 (amended): the inverse branch is not guarded — whenever the direct
key is absent and the inverse key holds a zero rate, `_get_cached_rate`
raises `ZeroDivisionError`, and when this happens on the first lookup the
error propagates out of `resolve` uncaught (refresh flag `false`); only
the store invariant `rate > 0` keeps this off the normal path. -/
theorem c9_zero_rate_unguarded_amended (s : RatesSnapshot)
    (refreshed : Except PyError RatesSnapshot) (now ttl : Int)
    (f t : String) (e : RateEntry)
    (hf : pyUpper f ∈ currencyRegistryCodes)
    (ht : pyUpper t ∈ currencyRegistryCodes)
    (h1 : s.pairs.lookup (pairKey f t) = none)
    (h2 : s.pairs.lookup (pairKey t f) = some e)
    (h0 : e.rate = 0) :
    TradingService.get_cached_rate s now f t = .error .zeroDivisionError
    ∧ TradingService.get_exchange_rate s refreshed now ttl f t
      = (.error .zeroDivisionError, false) := by
  have hc : TradingService.get_cached_rate s now f t = .error .zeroDivisionError := by
    simp [TradingService.get_cached_rate, h1, h2, pyDiv, h0]
  exact ⟨hc, by simp [TradingService.get_exchange_rate, get_currency, hf, ht, hc]⟩

/-- Witness for c9_zero_rate_unguarded_amended: the concrete zero-rate
`EUR_GBP` snapshot crashes the `(GBP, EUR)` resolution. -/
theorem c9_zero_rate_unguarded_amended_witness :
    TradingService.get_cached_rate ⟨[("EUR_GBP", ⟨0, 200, "all"⟩)], some 200⟩
        200 "GBP" "EUR" = .error .zeroDivisionError
    ∧ TradingService.get_exchange_rate ⟨[("EUR_GBP", ⟨0, 200, "all"⟩)], some 200⟩
        (.ok ⟨[], none⟩) 200 300 "GBP" "EUR" = (.error .zeroDivisionError, false) :=
  c9_zero_rate_unguarded_amended ⟨[("EUR_GBP", ⟨0, 200, "all"⟩)], some 200⟩
    (.ok ⟨[], none⟩) 200 300 "GBP" "EUR" ⟨0, 200, "all"⟩
    (by decide) (by decide) (by decide) (by decide) (by decide)

/-- C6: `run_update` with no source filter invokes both providers, a
raised provider error is logged and skipped without aborting the other
provider, the merged mapping of the successful results is returned, and
`save_rates` is called exactly when that mapping is non-empty: a failed
crypto fetch plus a fiat result `{"EUR_USD": 1.08}` yields exactly that
mapping, saved as exactly that pair (with fresh timestamps); two failed
or empty fetches yield `{}` with no save at all. -/
theorem c6_provider_isolation_merge_and_save :
    (∀ (e : PyError) (q : Rat),
       RatesUpdater.run_update none (.error e) (.ok [("EUR_USD", q)])
         = ⟨[("EUR_USD", q)], some [("EUR_USD", q)], true, true⟩)
    ∧ (∀ now : Int,
       RatesStorage.save_rates [("EUR_USD", 27/25)] "all" now
         = ⟨[("EUR_USD", ⟨27/25, now, "all"⟩)], some now⟩)
    ∧ (∀ e1 e2 : PyError,
       RatesUpdater.run_update none (.error e1) (.error e2)
         = ⟨[], none, true, true⟩)
    ∧ RatesUpdater.run_update none (.ok []) (.ok []) = ⟨[], none, true, true⟩
    ∧ (∀ cryptoResult fiatResult : Except PyError (List (String × Rat)),
       (RatesUpdater.run_update none cryptoResult fiatResult).cryptoCalled = true
       ∧ (RatesUpdater.run_update none cryptoResult fiatResult).fiatCalled = true
       ∧ ((RatesUpdater.run_update none cryptoResult fiatResult).saved = none
          ↔ (RatesUpdater.run_update none cryptoResult fiatResult).rates = [])) := by
  refine ⟨?_, ?_, ?_, ?_, ?_⟩
  · intro e q
    rfl
  · intro now
    rfl
  · intro e1 e2
    rfl
  · rfl
  · intro cryptoResult fiatResult
    refine ⟨rfl, rfl, ?_⟩
    simp only [RatesUpdater.run_update]
    split <;> simp_all [List.isEmpty_iff]

/-- Witness for c6_provider_isolation_merge_and_save: the crypto provider
raises, the fiat provider returns `{"EUR_USD": 1.08}`, and the refresh
returns and saves exactly that pair. -/
theorem c6_provider_isolation_merge_and_save_witness :
    RatesUpdater.run_update none
        (.error (.apiRequestError "CoinGecko API request failed: timeout"))
        (.ok [("EUR_USD", 27/25)])
      = ⟨[("EUR_USD", 27/25)], some [("EUR_USD", 27/25)], true, true⟩ :=
  c6_provider_isolation_merge_and_save.1
    (.apiRequestError "CoinGecko API request failed: timeout") (27/25)

/-- C7: the two provider clients are asymmetric in failure handling — the
crypto client turns every request failure (including non-2xx statuses,
surfaced by `raise_for_status` as a `RequestException`) and every parsing
failure into a raised `ApiRequestError` (the spec's `ProviderError`)
carrying the reason, producing no partial rates, while the fiat client
never raises: request failures, parsing failures, non-200 statuses and
non-`"success"` envelopes all return the embedded static demo-rate table,
and every outcome whatsoever produces some rate mapping. -/
theorem c7_provider_failure_asymmetry :
    (∀ reason, CoinGeckoClient.fetch_rates (.requestException reason)
       = .error (.apiRequestError ("CoinGecko API request failed: " ++ reason)))
    ∧ (∀ reason, CoinGeckoClient.fetch_rates (.parseError reason)
       = .error (.apiRequestError ("CoinGecko API response parsing failed: " ++ reason)))
    ∧ (∀ reason, ExchangeRateApiClient.fetch_rates (.requestException reason)
       = .ok ExchangeRateApiClient.demo_rates)
    ∧ (∀ reason, ExchangeRateApiClient.fetch_rates (.parseError reason)
       = .ok ExchangeRateApiClient.demo_rates)
    ∧ (∀ (status : Nat) (result : String) (errorType : Option String)
         (conversion_rates : List (String × Rat)), status ≠ 200 →
       ExchangeRateApiClient.fetch_rates (.response status result errorType conversion_rates)
         = .ok ExchangeRateApiClient.demo_rates)
    ∧ (∀ (status : Nat) (result : String) (errorType : Option String)
         (conversion_rates : List (String × Rat)), result ≠ "success" →
       ExchangeRateApiClient.fetch_rates (.response status result errorType conversion_rates)
         = .ok ExchangeRateApiClient.demo_rates)
    ∧ (∀ outcome : FiatFetchOutcome, ∃ rates,
       ExchangeRateApiClient.fetch_rates outcome = .ok rates) := by
  refine ⟨?_, ?_, ?_, ?_, ?_, ?_, ?_⟩
  · intro reason
    rfl
  · intro reason
    rfl
  · intro reason
    rfl
  · intro reason
    rfl
  · intro status result errorType conversion_rates h
    simp [ExchangeRateApiClient.fetch_rates, h]
  · intro status result errorType conversion_rates h
    by_cases hs : status = 200 <;>
      simp [ExchangeRateApiClient.fetch_rates, hs, h]
  · intro outcome
    cases outcome with
    | requestException reason => exact ⟨_, rfl⟩
    | parseError reason => exact ⟨_, rfl⟩
    | response status result errorType conversion_rates =>
      simp only [ExchangeRateApiClient.fetch_rates]
      split_ifs <;> exact ⟨_, rfl⟩

/-- Witness for c7_provider_failure_asymmetry: a 500 status and an
`"error"` envelope both degrade to the demo table. -/
theorem c7_provider_failure_asymmetry_witness :
    ExchangeRateApiClient.fetch_rates (.response 500 "success" none [("EUR", 2)])
      = .ok ExchangeRateApiClient.demo_rates
    ∧ ExchangeRateApiClient.fetch_rates (.response 200 "error" (some "invalid-key") [])
      = .ok ExchangeRateApiClient.demo_rates :=
  ⟨c7_provider_failure_asymmetry.2.2.2.2.1 500 "success" none [("EUR", 2)] (by decide),
   c7_provider_failure_asymmetry.2.2.2.2.2.1 200 "error" (some "invalid-key") [] (by decide)⟩
